import Mathlib

/-!
Verification development for the gigalab test-submission and result
pipeline (backend controllers and middleware).  The definitions below are a
shallow embedding of `src/backend/src/controllers/testController.ts`,
`src/backend/src/controllers/adminController.ts` and
`src/backend/src/middleware/validation.ts` (which also holds the upload and
error-handler middleware).  Database state (`prisma.test`) is modelled as an
explicit `Store` value threaded through the operations; the stored image
files (the `uploads/test-images` directory) are the `images` component.
Floating-point confidences and image statistics are modelled as rationals.
-/

namespace Gigalab

/-- `result` enum of the Prisma `Test` model. -/
inductive TestResult where
  | POSITIVE
  | NEGATIVE
  | INVALID
  | INCONCLUSIVE
deriving DecidableEq, Repr

/-- `testType` enum of the Prisma `Test` model. -/
inductive TestType where
  | COVID_19
  | PREGNANCY
  | INFLUENZA_A
  | INFLUENZA_B
  | STREP_A
  | OTHER
deriving DecidableEq, Repr

/-- User roles (`Role` in the Prisma schema); only admin-vs-not matters here. -/
inductive Role where
  | USER
  | ADMIN
deriving DecidableEq, Repr

/-- The authenticated principal attached to a request (`req.user`). -/
structure User where
  id : Nat
  role : Role
deriving DecidableEq, Repr

/-- One row of the `Test` table.  Timestamps are abstract `Nat` instants. -/
structure TestRecord where
  id : Nat
  userId : Nat
  testType : TestType
  result : TestResult
  confidence : ℚ
  imageUrl : Option String
  latitude : Option ℚ
  longitude : Option ℚ
  location : Option String
  isAnonymous : Bool
  testDate : Nat
  createdAt : Nat
deriving DecidableEq, Repr

/-- The persistent state: the `Test` table plus the stored image files.
`nextId` generates fresh record ids (cuid generation in Prisma). -/
structure Store where
  tests : List TestRecord
  images : List String
  nextId : Nat
deriving DecidableEq, Repr

/-- `AppError` from `middleware/errorHandler` (message, HTTP status, code). -/
structure AppError where
  message : String
  statusCode : Nat
  code : Option String
deriving DecidableEq, Repr

namespace createError

def badRequest (message : String) (code : Option String) : AppError :=
  { message := message, statusCode := 400, code := code }

def unauthorized (message : String) (code : Option String) : AppError :=
  { message := message, statusCode := 401, code := code }

def forbidden (message : String) (code : Option String) : AppError :=
  { message := message, statusCode := 403, code := code }

def notFound (message : String) (code : Option String) : AppError :=
  { message := message, statusCode := 404, code := code }

def internal (message : String) (code : Option String) : AppError :=
  { message := message, statusCode := 500, code := code }

end createError

/-- Bounding boxes reported by the mock analyzer. -/
structure BoundingBox where
  x : Nat
  y : Nat
  width : Nat
  height : Nat
  label : String
deriving DecidableEq, Repr

/-- `TestAnalysis` returned by `analyzeTestImage`. -/
structure TestAnalysis where
  result : TestResult
  confidence : ℚ
  boundingBoxes : List BoundingBox
deriving DecidableEq, Repr

/-- The fixed table of mock outcomes in `analyzeTestImage`
(`testController.ts` lines 13-18). -/
def mockResults : List (TestResult × ℚ) :=
  [(.POSITIVE, 92/100), (.NEGATIVE, 88/100), (.INVALID, 95/100), (.INCONCLUSIVE, 45/100)]

/-- `analyzeTestImage`: the mock classifier.  `Math.floor(Math.random() * 4)`
is modelled as the explicit random index `randomIndex : Fin 4`. -/
def analyzeTestImage (randomIndex : Fin 4) : TestAnalysis :=
  let randomResult := mockResults.get (Fin.cast (by decide) randomIndex)
  { result := randomResult.1
    confidence := randomResult.2
    boundingBoxes :=
      [{ x := 120, y := 80, width := 200, height := 50, label := "control_line" },
       { x := 120, y := 150, width := 200, height := 50, label := "test_line" }] }

/-- Decoded raster properties that `sharp` reports for a decodable image:
`metadata()` width and height, `stats()` per-channel means, and the raw
bytes produced by the edge-detection convolution in `validateRDTImage`. -/
structure ImageProps where
  width : Option Nat
  height : Option Nat
  channelMeans : List ℚ
  edgeBytes : List Nat
deriving DecidableEq, Repr

/-- An uploaded file (`req.file` from multer memory storage).  `buffer` is
`none` when `sharp` cannot decode the bytes (every `sharp` call throws). -/
structure UploadedFile where
  mimetype : String
  size : Nat
  originalname : String
  buffer : Option ImageProps
deriving DecidableEq, Repr

/-- JS truthiness guard `metadata.width && metadata.width < 200`:
a dimension of `0` is falsy, so it raises no issue. -/
def dimTooSmall (d : Option Nat) : Bool :=
  match d with
  | some w => w != 0 && w < 200
  | none => false

/-- Result shape of `validateRDTImage`. -/
structure RDTValidation where
  isValid : Bool
  issues : List String
deriving DecidableEq, Repr

/-- `validateRDTImage` (`middleware/upload`): quality checks over the decoded
raster; the surrounding try/catch maps any processing failure (undecodable
bytes) to the fixed fallback result. -/
def validateRDTImage (buffer : Option ImageProps) : RDTValidation :=
  match buffer with
  | none => { isValid := false, issues := ["Failed to validate image"] }
  | some metadata =>
    let dimIssues : List String :=
      (if dimTooSmall metadata.width then ["Image width is too small (minimum 200px)"] else []) ++
      (if dimTooSmall metadata.height then ["Image height is too small (minimum 200px)"] else [])
    let brightnessIssues : List String :=
      match metadata.channelMeans with
      | [] => []
      | ms =>
        let averageBrightness := ms.sum / (ms.length : ℚ)
        if averageBrightness < 30 then ["Image appears too dark"]
        else if averageBrightness > 225 then ["Image appears too bright"]
        else []
    let blurIssues : List String :=
      match metadata.edgeBytes with
      | [] => []
      | es => if ((es.sum : ℚ) / (es.length : ℚ)) < 10 then ["Image appears blurry"] else []
    let issues := dimIssues ++ brightnessIssues ++ blurIssues
    { isValid := issues.isEmpty, issues := issues }

/-- Stored-image data returned by `processTestImage`. -/
structure ImageData where
  filename : String
  url : String
deriving DecidableEq, Repr

def baseUrl : String := "http://localhost:3001"

/-- `processTestImage`: resizes and persists the image, returning the stored
filename and URL; throws `IMAGE_PROCESSING_ERROR` (500) when `sharp` fails.
The timestamp-plus-random generated filename is passed in explicitly. -/
def processTestImage (buffer : Option ImageProps) (filename : String) :
    Except AppError ImageData :=
  match buffer with
  | none =>
    .error { message := "Failed to process image", statusCode := 500,
             code := some "IMAGE_PROCESSING_ERROR" }
  | some _ =>
    .ok { filename := filename, url := baseUrl ++ "/uploads/test-images/" ++ filename }

/-- Multer MIME allow-list (`fileFilter` in the upload middleware). -/
def allowedTypes : List String := ["image/jpeg", "image/png", "image/webp"]

/-- `UPLOAD_MAX_SIZE` default: 5242880 bytes (5 MB). -/
def uploadMaxSizeDefault : Nat := 5242880

/-- Multer `fileFilter`: rejects MIME types outside the allow-list. -/
def fileFilter (mimetype : String) : Except AppError Unit :=
  if allowedTypes.contains mimetype then .ok ()
  else
    .error { message := "Invalid file type. Only JPEG, PNG, and WebP images are allowed.",
             statusCode := 400, code := some "INVALID_FILE_TYPE" }

/-- The multer stage of `POST /tests`: MIME filter plus size ceiling.  A
`LIMIT_FILE_SIZE` MulterError is mapped by `errorHandler` to status 400 with
code `FILE_TOO_LARGE` and message `File size too large`. -/
def uploadGate (maxSize : Nat) (file : UploadedFile) : Except AppError Unit :=
  match fileFilter file.mimetype with
  | .error e => .error e
  | .ok _ =>
    if file.size > maxSize then
      .error { message := "File size too large", statusCode := 400,
               code := some "FILE_TOO_LARGE" }
    else .ok ()

/-- Request body of `POST /tests` after parsing (`parseFloat` on coordinates
and the string-to-boolean coercion on `isAnonymous` already applied). -/
structure CreateBody where
  testType : TestType
  latitude : Option ℚ
  longitude : Option ℚ
  location : Option String
  isAnonymous : Bool
deriving DecidableEq, Repr

/-- Outcome of the submission pipeline: resulting store, HTTP-level response,
and whether `analyzeTestImage` was invoked on this request. -/
structure CreateOutcome where
  store : Store
  response : Except AppError (TestRecord × TestAnalysis)
  classifierInvoked : Bool

/-- `createTest` handler: quality-validate, store the image, classify, then
insert the record.  `now` is the request time (`testDate`/`createdAt`
default). -/
def createTest (s : Store) (user : Option User) (file : Option UploadedFile)
    (body : CreateBody) (rand : Fin 4) (filename : String) (now : Nat) : CreateOutcome :=
  match user with
  | none => ⟨s, .error (createError.unauthorized "User not authenticated" none), false⟩
  | some u =>
    match file with
    | none => ⟨s, .error (createError.badRequest "Test image is required" (some "IMAGE_REQUIRED")), false⟩
    | some f =>
      let validation := validateRDTImage f.buffer
      if validation.isValid then
        match processTestImage f.buffer filename with
        | .error e => ⟨s, .error e, false⟩
        | .ok imageData =>
          let analysis := analyzeTestImage rand
          let test : TestRecord :=
            { id := s.nextId, userId := u.id, testType := body.testType,
              result := analysis.result, confidence := analysis.confidence,
              imageUrl := some imageData.url, latitude := body.latitude,
              longitude := body.longitude, location := body.location,
              isAnonymous := body.isAnonymous, testDate := now, createdAt := now }
          ⟨{ tests := s.tests ++ [test], images := s.images ++ [imageData.filename],
             nextId := s.nextId + 1 },
           .ok (test, analysis), true⟩
      else
        ⟨s, .error (createError.badRequest
              ("Image quality issues: " ++ String.intercalate ", " validation.issues)
              (some "POOR_IMAGE_QUALITY")), false⟩

/-- Full `POST /tests` pipeline: multer upload gate, then the handler. -/
def postTests (maxSize : Nat) (s : Store) (user : Option User) (file : Option UploadedFile)
    (body : CreateBody) (rand : Fin 4) (filename : String) (now : Nat) : CreateOutcome :=
  match file with
  | none => createTest s user none body rand filename now
  | some f =>
    match uploadGate maxSize f with
    | .error e => ⟨s, .error e, false⟩
    | .ok _ => createTest s user (some f) body rand filename now

/-- The ownership-scoped lookup every single-record handler performs:
`prisma.test.findFirst` with both `id` and `userId` in the `where` clause. -/
def findTest (s : Store) (uid : Nat) (testId : Nat) : Option TestRecord :=
  s.tests.find? (fun t => t.id == testId && t.userId == uid)

/-- `GET /tests/:testId` (`getTestById`). -/
def getTestById (s : Store) (user : Option User) (testId : Nat) :
    Except AppError TestRecord :=
  match user with
  | none => .error (createError.unauthorized "User not authenticated" none)
  | some u =>
    match findTest s u.id testId with
    | none => .error (createError.notFound "Test not found" (some "TEST_NOT_FOUND"))
    | some test => .ok test

/-- `DELETE /tests/:testId` (`deleteTest`).  The source leaves the
`deleteImage(test.imageUrl)` call commented out behind a TODO, so the stored
image files are untouched by deletion. -/
def deleteTest (s : Store) (user : Option User) (testId : Nat) :
    Store × Except AppError Unit :=
  match user with
  | none => (s, .error (createError.unauthorized "User not authenticated" none))
  | some u =>
    match findTest s u.id testId with
    | none => (s, .error (createError.notFound "Test not found" (some "TEST_NOT_FOUND")))
    | some _ =>
      ({ s with tests := s.tests.filter (fun t => !(t.id == testId)) }, .ok ())

/-- `deleteImage` from the upload middleware: unlink the file, reporting
success as a boolean (`false` when the file is absent). -/
def deleteImage (s : Store) (filename : String) : Store × Bool :=
  if s.images.contains filename then
    ({ s with images := s.images.erase filename }, true)
  else
    (s, false)

/-- Body of `PUT /tests/:testId`: each field is `none` when the JSON field is
`undefined` (absent); a present `location` may itself be null. -/
structure UpdateBody where
  location : Option (Option String)
  isAnonymous : Option Bool
deriving DecidableEq, Repr

/-- The spread-based prisma update data of `updateTest`: only `location` and
`isAnonymous` are ever written. -/
def applyUpdate (b : UpdateBody) (t : TestRecord) : TestRecord :=
  { t with location := b.location.getD t.location,
           isAnonymous := b.isAnonymous.getD t.isAnonymous }

/-- `PUT /tests/:testId` (`updateTest`). -/
def updateTest (s : Store) (user : Option User) (testId : Nat) (b : UpdateBody) :
    Store × Except AppError TestRecord :=
  match user with
  | none => (s, .error (createError.unauthorized "User not authenticated" none))
  | some u =>
    match findTest s u.id testId with
    | none => (s, .error (createError.notFound "Test not found" (some "TEST_NOT_FOUND")))
    | some t =>
      ({ s with tests := s.tests.map (fun r => if r.id == testId then applyUpdate b r else r) },
       .ok (applyUpdate b t))

/-- Overwrite `result` and `confidence` from one analysis (the single prisma
update in `reanalyzeTest`). -/
def setAnalysis (a : TestAnalysis) (t : TestRecord) : TestRecord :=
  { t with result := a.result, confidence := a.confidence }

/-- `POST /tests/:testId/reanalyze` (`reanalyzeTest`).  `!test.imageUrl` is JS
falsiness: both a missing and an empty URL are rejected. -/
def reanalyzeTest (s : Store) (user : Option User) (testId : Nat) (rand : Fin 4) :
    Store × Except AppError (TestRecord × TestAnalysis) :=
  match user with
  | none => (s, .error (createError.unauthorized "User not authenticated" none))
  | some u =>
    match findTest s u.id testId with
    | none => (s, .error (createError.notFound "Test not found" (some "TEST_NOT_FOUND")))
    | some t =>
      match t.imageUrl with
      | none => (s, .error (createError.badRequest "No image found for this test" (some "NO_IMAGE_FOUND")))
      | some url =>
        if url.isEmpty then
          (s, .error (createError.badRequest "No image found for this test" (some "NO_IMAGE_FOUND")))
        else
          let mockAnalysis := analyzeTestImage rand
          ({ s with tests := s.tests.map (fun r => if r.id == testId then setAnalysis mockAnalysis r else r) },
           .ok (setAnalysis mockAnalysis t, mockAnalysis))

/-- The repeated positivity-rate expression
`totalTests > 0 ? (positiveTests / totalTests) * 100 : 0`. -/
def positivityRateOf (positive total : Nat) : ℚ :=
  if 0 < total then ((positive : ℚ) / (total : ℚ)) * 100 else 0

/-- Count of records with a given result (a `groupBy result` bucket). -/
def countResult (l : List TestRecord) (r : TestResult) : Nat :=
  (l.filter (fun t => t.result == r)).length

/-- Per-result counts (`resultStats` in both statistics handlers). -/
structure ResultCounts where
  POSITIVE : Nat
  NEGATIVE : Nat
  INVALID : Nat
  INCONCLUSIVE : Nat
deriving DecidableEq, Repr

def resultCountsOf (l : List TestRecord) : ResultCounts :=
  { POSITIVE := countResult l .POSITIVE, NEGATIVE := countResult l .NEGATIVE,
    INVALID := countResult l .INVALID, INCONCLUSIVE := countResult l .INCONCLUSIVE }

/-- Data of the `GET /tests/stats` response. -/
structure UserStats where
  totalTests : Nat
  positiveTests : Nat
  positivityRate : ℚ
  resultStats : ResultCounts
deriving DecidableEq, Repr

/-- The pure statistics computation of `getUserTestStats` over the requesting
user records. -/
def userStatsData (s : Store) (uid : Nat) : UserStats :=
  let userTests := s.tests.filter (fun t => t.userId == uid)
  let totalTests := userTests.length
  let positiveTests := countResult userTests .POSITIVE
  { totalTests := totalTests, positiveTests := positiveTests,
    positivityRate := positivityRateOf positiveTests totalTests,
    resultStats := resultCountsOf userTests }

/-- `GET /tests/stats` (`getUserTestStats`). -/
def getUserTestStats (s : Store) (user : Option User) : Except AppError UserStats :=
  match user with
  | none => .error (createError.unauthorized "User not authenticated" none)
  | some u => .ok (userStatsData s u.id)

/-- Data of the admin `GET /admin/tests/statistics` response (`TestStats`). -/
structure TestStatsData where
  total : Nat
  positive : Nat
  negative : Nat
  invalid : Nat
  positivityRate : ℚ
deriving DecidableEq, Repr

/-- `getTestStatistics` (admin controller): the query-derived `where` object
is modelled as the predicate `whereFilter`.  `total` is the sum of the
`groupBy result` bucket counts, i.e. the number of matching records, and
`positive` is the `POSITIVE` bucket. -/
def getTestStatistics (s : Store) (whereFilter : TestRecord → Bool) : TestStatsData :=
  let matched := s.tests.filter whereFilter
  let total := matched.length
  let positive := countResult matched .POSITIVE
  { total := total, positive := positive,
    negative := countResult matched .NEGATIVE, invalid := countResult matched .INVALID,
    positivityRate := positivityRateOf positive total }

/-- Query of `GET /tests` after `validateQuery`/`parseInt` defaulting.  The
controller reads no sort parameter: `sortBy`/`sortOrder` are accepted by the
query schema but never used. -/
structure ListQuery where
  page : Nat
  limit : Nat
  testType : Option TestType
  result : Option TestResult
  startDate : Option Nat
  endDate : Option Nat
deriving DecidableEq, Repr

/-- The prisma `where` object built by `getUserTests`. -/
def listWhere (uid : Nat) (q : ListQuery) (t : TestRecord) : Bool :=
  t.userId == uid &&
  (match q.testType with | some tt => t.testType == tt | none => true) &&
  (match q.result with | some r => t.result == r | none => true) &&
  (match q.startDate with | some d => d ≤ t.testDate | none => true) &&
  (match q.endDate with | some d => t.testDate ≤ d | none => true)

/-- `orderBy: testDate desc` as a relation. -/
def dateDesc (a b : TestRecord) : Prop := b.testDate ≤ a.testDate

instance : DecidableRel dateDesc := fun a b => Nat.decLe b.testDate a.testDate

instance : IsTotal TestRecord dateDesc := ⟨fun a b => Nat.le_total b.testDate a.testDate⟩

instance : IsTrans TestRecord dateDesc := ⟨fun _ _ _ hab hbc => Nat.le_trans hbc hab⟩

/-- `Math.ceil(total / limit)` on naturals (for positive `limit`). -/
def ceilDiv (a b : Nat) : Nat := (a + b - 1) / b

structure Pagination where
  page : Nat
  limit : Nat
  total : Nat
  totalPages : Nat
  hasNext : Bool
  hasPrev : Bool
deriving DecidableEq, Repr

structure ListResponse where
  data : List TestRecord
  pagination : Pagination
deriving DecidableEq, Repr

/-- `GET /tests` (`getUserTests`): filter, sort by `testDate` descending
(always — there is no sort-key parameter), offset pagination. -/
def getUserTests (s : Store) (user : Option User) (q : ListQuery) :
    Except AppError ListResponse :=
  match user with
  | none => .error (createError.unauthorized "User not authenticated" none)
  | some u =>
    let skip := (q.page - 1) * q.limit
    let filtered := s.tests.filter (listWhere u.id q)
    let total := filtered.length
    let tests := ((List.insertionSort dateDesc filtered).drop skip).take q.limit
    let totalPages := ceilDiv total q.limit
    .ok { data := tests,
          pagination := { page := q.page, limit := q.limit, total := total,
                          totalPages := totalPages,
                          hasNext := decide (q.page < totalPages),
                          hasPrev := decide (1 < q.page) } }

/-- The store-mutating operations of the test controller, for reachability
statements. -/
inductive Op where
  | create (maxSize : Nat) (user : Option User) (file : Option UploadedFile)
      (body : CreateBody) (rand : Fin 4) (filename : String) (now : Nat)
  | update (user : Option User) (testId : Nat) (b : UpdateBody)
  | reanalyze (user : Option User) (testId : Nat) (rand : Fin 4)
  | delete (user : Option User) (testId : Nat)

/-- Effect of one operation on the store. -/
def applyOp (s : Store) : Op → Store
  | .create maxSize user file body rand filename now =>
    (postTests maxSize s user file body rand filename now).store
  | .update user testId b => (updateTest s user testId b).1
  | .reanalyze user testId rand => (reanalyzeTest s user testId rand).1
  | .delete user testId => (deleteTest s user testId).1

/-- Run a sequence of operations. -/
def runOps (s : Store) (ops : List Op) : Store := ops.foldl applyOp s

/-- Every record pairs a `result` with the confidence produced alongside it
by the classifier: `(result, confidence)` is one of the `mockResults` rows,
never a cross-pairing of one row result with another row confidence. -/
def analysisConsistent (s : Store) : Prop :=
  ∀ t ∈ s.tests, (t.result, t.confidence) ∈ mockResults

/-- The record inserted by a successful `createTest` call. -/
def createdRecord (s : Store) (u : User) (body : CreateBody) (rand : Fin 4)
    (filename : String) (now : Nat) : TestRecord :=
  { id := s.nextId, userId := u.id, testType := body.testType,
    result := (analyzeTestImage rand).result, confidence := (analyzeTestImage rand).confidence,
    imageUrl := some (baseUrl ++ "/uploads/test-images/" ++ filename),
    latitude := body.latitude, longitude := body.longitude, location := body.location,
    isAnonymous := body.isAnonymous, testDate := now, createdAt := now }

/-- The error every ownership-scoped lookup raises on a miss. -/
def notFoundTestError : AppError := createError.notFound "Test not found" (some "TEST_NOT_FOUND")

/-! Concrete fixtures used by witnesses and counterexamples. -/

/-- A decodable 300 by 300 raster; with no channel or convolution samples the
brightness and blur heuristics raise no issue. -/
def props0 : ImageProps :=
  { width := some 300, height := some 300, channelMeans := [], edgeBytes := [] }

/-- A valid 2 MB JPEG upload. -/
def goodFile : UploadedFile :=
  { mimetype := "image/jpeg", size := 2097152, originalname := "a.jpg", buffer := some props0 }

/-- An 8 MB JPEG upload, over the 5 MB ceiling. -/
def bigFile : UploadedFile :=
  { mimetype := "image/jpeg", size := 8388608, originalname := "big.jpg", buffer := some props0 }

/-- An upload whose bytes `sharp` cannot decode. -/
def badFile : UploadedFile :=
  { mimetype := "image/png", size := 1000, originalname := "bad.png", buffer := none }

def store0 : Store := { tests := [], images := [], nextId := 1 }

def user1 : User := { id := 1, role := .USER }

def userB : User := { id := 2, role := .USER }

def body0 : CreateBody :=
  { testType := .COVID_19, latitude := none, longitude := none, location := none,
    isAnonymous := false }

/-- A single NEGATIVE record for user 1. -/
def negRecord : TestRecord :=
  { id := 1, userId := 1, testType := .COVID_19, result := .NEGATIVE, confidence := 88/100,
    imageUrl := some "u", latitude := none, longitude := none, location := none,
    isAnonymous := false, testDate := 10, createdAt := 10 }

def storeOneNegative : Store := { tests := [negRecord], images := [], nextId := 2 }

/-- A record owned by user 1. -/
def recordOfA : TestRecord :=
  { id := 1, userId := 1, testType := .COVID_19, result := .POSITIVE, confidence := 92/100,
    imageUrl := some "u", latitude := none, longitude := none, location := none,
    isAnonymous := false, testDate := 10, createdAt := 10 }

def storeOfA : Store := { tests := [recordOfA], images := [], nextId := 2 }

/-- A POSITIVE record of user 1 with the given id, date and confidence. -/
def posRecord (i dt : Nat) (c : ℚ) : TestRecord :=
  { id := i, userId := 1, testType := .COVID_19, result := .POSITIVE, confidence := c,
    imageUrl := some "u", latitude := none, longitude := none, location := none,
    isAnonymous := false, testDate := dt, createdAt := dt }

/-- Five positive records whose confidence order is the reverse of their date
order: later tests have lower confidence. -/
def fixtureStore : Store :=
  { tests := [posRecord 1 10 (9/10), posRecord 2 20 (8/10), posRecord 3 30 (7/10),
              posRecord 4 40 (6/10), posRecord 5 50 (5/10)],
    images := [], nextId := 6 }

/-- The scenario query: `result=POSITIVE`, page 1, limit 2 (the requested
confidence-descending sort has no representation in the controller). -/
def fixtureQuery : ListQuery :=
  { page := 1, limit := 2, testType := none, result := some .POSITIVE,
    startDate := none, endDate := none }

/-- A record of user 1 whose processed image file `img1.jpg` is stored. -/
def recordWithImage : TestRecord :=
  { id := 1, userId := 1, testType := .COVID_19, result := .POSITIVE, confidence := 92/100,
    imageUrl := some (baseUrl ++ "/uploads/test-images/img1.jpg"), latitude := none,
    longitude := none, location := none, isAnonymous := false, testDate := 10, createdAt := 10 }

def storeWithImage : Store :=
  { tests := [recordWithImage], images := ["img1.jpg"], nextId := 2 }

/-! Supporting lemmas. -/

/-- A buffer that passes quality validation decoded successfully. -/
theorem validateRDTImage_some_of_isValid {buf : Option ImageProps}
    (h : (validateRDTImage buf).isValid = true) : ∃ p, buf = some p := by
  cases buf with
  | none => simp [validateRDTImage] at h
  | some p => exact ⟨p, rfl⟩

/-- On a valid submission the pipeline appends exactly the created record and
stores the image. -/
theorem postTests_success (s : Store) (u : User) (f : UploadedFile) (body : CreateBody)
    (rand : Fin 4) (filename : String) (now : Nat) (maxSize : Nat)
    (hmime : allowedTypes.contains f.mimetype = true)
    (hsize : f.size ≤ maxSize)
    (hvalid : (validateRDTImage f.buffer).isValid = true) :
    postTests maxSize s (some u) (some f) body rand filename now =
      ⟨{ tests := s.tests ++ [createdRecord s u body rand filename now],
         images := s.images ++ [filename], nextId := s.nextId + 1 },
       .ok (createdRecord s u body rand filename now, analyzeTestImage rand), true⟩ := by
  obtain ⟨p, hp⟩ := validateRDTImage_some_of_isValid hvalid
  rw [hp] at hvalid
  simp only [postTests, uploadGate, fileFilter, hmime, if_true]
  rw [if_neg (by omega)]
  simp only [createTest, hp, processTestImage, createdRecord, hvalid, if_true]

/-- Every mock analysis confidence lies in the unit interval. -/
theorem analyzeTestImage_confidence_bounds (r : Fin 4) :
    0 ≤ (analyzeTestImage r).confidence ∧ (analyzeTestImage r).confidence ≤ 1 := by
  fin_cases r <;> constructor <;> norm_num [analyzeTestImage, mockResults]

theorem testResult_cases (r : TestResult) :
    r = .POSITIVE ∨ r = .NEGATIVE ∨ r = .INVALID ∨ r = .INCONCLUSIVE := by
  cases r <;> simp

/-- The multer gate passes an allow-listed file within the size ceiling. -/
theorem uploadGate_ok {maxSize : Nat} {f : UploadedFile}
    (hmime : allowedTypes.contains f.mimetype = true) (hsize : f.size ≤ maxSize) :
    uploadGate maxSize f = .ok () := by
  simp only [uploadGate, fileFilter, hmime, if_true]
  rw [if_neg (by omega)]

theorem outcome_parts {o : CreateOutcome} {s : Store} {e : AppError}
    (h : o = ⟨s, .error e, false⟩) :
    (∃ e2, o.response = .error e2) ∧ o.store = s ∧ o.classifierInvoked = false :=
  ⟨⟨e, by rw [h]⟩, by rw [h], by rw [h]⟩

theorem getTestById_of_findTest_none {s : Store} {b : User} {tid : Nat}
    (h : findTest s b.id tid = none) :
    getTestById s (some b) tid = .error notFoundTestError := by
  simp only [getTestById, h, notFoundTestError]

theorem updateTest_of_findTest_none {s : Store} {b : User} {tid : Nat} {bodyU : UpdateBody}
    (h : findTest s b.id tid = none) :
    updateTest s (some b) tid bodyU = (s, .error notFoundTestError) := by
  simp only [updateTest, h, notFoundTestError]

theorem deleteTest_of_findTest_none {s : Store} {b : User} {tid : Nat}
    (h : findTest s b.id tid = none) :
    deleteTest s (some b) tid = (s, .error notFoundTestError) := by
  simp only [deleteTest, h, notFoundTestError]

theorem reanalyzeTest_of_findTest_none {s : Store} {b : User} {tid : Nat} {rand : Fin 4}
    (h : findTest s b.id tid = none) :
    reanalyzeTest s (some b) tid rand = (s, .error notFoundTestError) := by
  simp only [reanalyzeTest, h, notFoundTestError]

/-- The scoped lookup misses whenever no record couples the id with the
requesting owner. -/
theorem findTest_none_of_other_owner {s : Store} {b : User} {tid : Nat}
    (hno : ∀ t ∈ s.tests, t.id = tid → t.userId ≠ b.id) :
    findTest s b.id tid = none := by
  rw [findTest, List.find?_eq_none]
  intro x hx
  simp only [Bool.and_eq_true, beq_iff_eq, not_and]
  intro hxid
  exact hno x hx hxid

theorem countResult_le_length (l : List TestRecord) (r : TestResult) :
    countResult l r ≤ l.length :=
  List.length_filter_le _ _

/-- The positivity-rate expression is bounded and never divides by zero. -/
theorem positivityRateOf_bounds {p t : Nat} (hpt : p ≤ t) :
    0 ≤ positivityRateOf p t ∧ positivityRateOf p t ≤ 100 ∧
    (t = 0 → positivityRateOf p t = 0) ∧
    (0 < t → positivityRateOf p t = (p : ℚ) / (t : ℚ) * 100) := by
  unfold positivityRateOf
  rcases Nat.eq_zero_or_pos t with h0 | hpos
  · subst h0; simp
  · rw [if_pos hpos]
    have ht : (0 : ℚ) < (t : ℚ) := by exact_mod_cast hpos
    have h1 : (p : ℚ) / (t : ℚ) ≤ 1 := by
      rw [div_le_one ht]
      exact_mod_cast hpt
    have h0q : (0 : ℚ) ≤ (p : ℚ) / (t : ℚ) := by positivity
    refine ⟨by nlinarith, by nlinarith, by omega, fun _ => rfl⟩

/-- Every mock analysis outcome is one of the table rows. -/
theorem analyzeTestImage_mem_mockResults (r : Fin 4) :
    ((analyzeTestImage r).result, (analyzeTestImage r).confidence) ∈ mockResults := by
  fin_cases r <;> simp [analyzeTestImage, mockResults]

/-- A record in the store after `createTest` was there before, or carries the
result and confidence of this call's analysis. -/
theorem createTest_store_mem {s : Store} {user : Option User} {file : Option UploadedFile}
    {body : CreateBody} {rand : Fin 4} {filename : String} {now : Nat} {t : TestRecord}
    (h : t ∈ (createTest s user file body rand filename now).store.tests) :
    t ∈ s.tests ∨
    (t.result = (analyzeTestImage rand).result ∧ t.confidence = (analyzeTestImage rand).confidence) := by
  cases user with
  | none => exact Or.inl h
  | some u =>
    cases file with
    | none => exact Or.inl h
    | some f =>
      by_cases hv : (validateRDTImage f.buffer).isValid = true
      · simp only [createTest, hv, if_true] at h
        cases hp : processTestImage f.buffer filename with
        | error e => rw [hp] at h; exact Or.inl h
        | ok d =>
          rw [hp] at h
          simp only [List.mem_append, List.mem_singleton] at h
          rcases h with h | h
          · exact Or.inl h
          · subst h
            exact Or.inr ⟨rfl, rfl⟩
      · simp only [createTest, hv, Bool.false_eq_true, if_false] at h
        exact Or.inl h

theorem postTests_store_mem {maxSize : Nat} {s : Store} {user : Option User}
    {file : Option UploadedFile} {body : CreateBody} {rand : Fin 4} {filename : String}
    {now : Nat} {t : TestRecord}
    (h : t ∈ (postTests maxSize s user file body rand filename now).store.tests) :
    t ∈ s.tests ∨
    (t.result = (analyzeTestImage rand).result ∧ t.confidence = (analyzeTestImage rand).confidence) := by
  cases file with
  | none => exact createTest_store_mem h
  | some f =>
    cases hg : uploadGate maxSize f with
    | error e => simp only [postTests, hg] at h; exact Or.inl h
    | ok _ => simp only [postTests, hg] at h; exact createTest_store_mem h

/-- The submission pipeline never removes or rewrites existing records. -/
theorem postTests_store_mem_mono {maxSize : Nat} {s : Store} {user : Option User}
    {file : Option UploadedFile} {body : CreateBody} {rand : Fin 4} {filename : String}
    {now : Nat} {t : TestRecord} (h : t ∈ s.tests) :
    t ∈ (postTests maxSize s user file body rand filename now).store.tests := by
  cases file with
  | none => cases user <;> exact h
  | some f =>
    cases hg : uploadGate maxSize f with
    | error e => simp only [postTests, hg]; exact h
    | ok _ =>
      simp only [postTests, hg]
      cases user with
      | none => exact h
      | some u =>
        by_cases hv : (validateRDTImage f.buffer).isValid = true
        · simp only [createTest, hv, if_true]
          cases hp : processTestImage f.buffer filename with
          | error e => exact h
          | ok d => simp only [List.mem_append]; exact Or.inl h
        · simp only [createTest, hv, Bool.false_eq_true, if_false]
          exact h

/-- `updateTest` preserves every record's result and confidence. -/
theorem updateTest_store_mem {s : Store} {user : Option User} {tid : Nat} {b : UpdateBody}
    {t : TestRecord} (h : t ∈ (updateTest s user tid b).1.tests) :
    ∃ t0 ∈ s.tests, t.id = t0.id ∧ t.result = t0.result ∧ t.confidence = t0.confidence := by
  cases user with
  | none => exact ⟨t, h, rfl, rfl, rfl⟩
  | some u =>
    cases hft : findTest s u.id tid with
    | none => simp only [updateTest, hft] at h; exact ⟨t, h, rfl, rfl, rfl⟩
    | some t1 =>
      simp only [updateTest, hft, List.mem_map] at h
      obtain ⟨r, hr, hrt⟩ := h
      by_cases hid : (r.id == tid) = true
      · rw [if_pos hid] at hrt
        subst hrt
        exact ⟨r, hr, rfl, rfl, rfl⟩
      · rw [if_neg hid] at hrt
        subst hrt
        exact ⟨r, hr, rfl, rfl, rfl⟩

theorem deleteTest_store_mem {s : Store} {user : Option User} {tid : Nat}
    {t : TestRecord} (h : t ∈ (deleteTest s user tid).1.tests) : t ∈ s.tests := by
  cases user with
  | none => exact h
  | some u =>
    cases hft : findTest s u.id tid with
    | none => simp only [deleteTest, hft] at h; exact h
    | some t1 =>
      simp only [deleteTest, hft] at h
      exact List.mem_of_mem_filter h

/-- After `reanalyzeTest` a record either kept its old analysis pair or holds
both fields of the fresh analysis. -/
theorem reanalyzeTest_store_mem {s : Store} {user : Option User} {tid : Nat} {rand : Fin 4}
    {t : TestRecord} (h : t ∈ (reanalyzeTest s user tid rand).1.tests) :
    (∃ t0 ∈ s.tests, t.id = t0.id ∧ t.result = t0.result ∧ t.confidence = t0.confidence) ∨
    (t.result = (analyzeTestImage rand).result ∧ t.confidence = (analyzeTestImage rand).confidence) := by
  cases user with
  | none => exact Or.inl ⟨t, h, rfl, rfl, rfl⟩
  | some u =>
    cases hft : findTest s u.id tid with
    | none => simp only [reanalyzeTest, hft] at h; exact Or.inl ⟨t, h, rfl, rfl, rfl⟩
    | some t1 =>
      cases himg : t1.imageUrl with
      | none =>
        simp only [reanalyzeTest, hft, himg] at h
        exact Or.inl ⟨t, h, rfl, rfl, rfl⟩
      | some url =>
        by_cases hemp : url.isEmpty = true
        · simp only [reanalyzeTest, hft, himg, hemp, if_true] at h
          exact Or.inl ⟨t, h, rfl, rfl, rfl⟩
        · simp only [reanalyzeTest, hft, himg, hemp, Bool.false_eq_true, if_false] at h
          simp only [List.mem_map] at h
          obtain ⟨r, hr, hrt⟩ := h
          by_cases hid : (r.id == tid) = true
          · rw [if_pos hid] at hrt
            subst hrt
            exact Or.inr ⟨rfl, rfl⟩
          · rw [if_neg hid] at hrt
            subst hrt
            exact Or.inl ⟨r, hr, rfl, rfl, rfl⟩

/-- Each operation keeps every stored `(result, confidence)` pair one that a
single analysis produced. -/
theorem applyOp_analysisConsistent {s : Store} (h : analysisConsistent s) (op : Op) :
    analysisConsistent (applyOp s op) := by
  cases op with
  | create maxSize user file body rand filename now =>
    intro t ht
    rcases postTests_store_mem ht with h1 | ⟨hr, hc⟩
    · exact h t h1
    · rw [hr, hc]; exact analyzeTestImage_mem_mockResults rand
  | update user tid b =>
    intro t ht
    obtain ⟨t0, ht0, _, hr, hc⟩ := updateTest_store_mem ht
    rw [hr, hc]; exact h t0 ht0
  | reanalyze user tid rand =>
    intro t ht
    rcases reanalyzeTest_store_mem ht with ⟨t0, ht0, _, hr, hc⟩ | ⟨hr, hc⟩
    · rw [hr, hc]; exact h t0 ht0
    · rw [hr, hc]; exact analyzeTestImage_mem_mockResults rand
  | delete user tid =>
    intro t ht
    exact h t (deleteTest_store_mem ht)

theorem runOps_analysisConsistent {s : Store} (h : analysisConsistent s) :
    ∀ ops : List Op, analysisConsistent (runOps s ops) := by
  intro ops
  induction ops generalizing s with
  | nil => exact h
  | cons op ops ih => exact ih (applyOp_analysisConsistent h op)

/-! Claim theorems. -/

/-- C1: every valid image and testType submission yields a record whose
confidence lies in the unit interval and whose result is one of the four enum
values, and the record is immediately retrievable by its owner via get. -/
theorem createTest_valid_submission
    (s : Store) (u : User) (f : UploadedFile) (body : CreateBody) (rand : Fin 4)
    (filename : String) (now : Nat) (maxSize : Nat)
    (hmime : allowedTypes.contains f.mimetype = true)
    (hsize : f.size ≤ maxSize)
    (hvalid : (validateRDTImage f.buffer).isValid = true)
    (hfresh : ∀ t ∈ s.tests, t.id < s.nextId) :
    ∃ test analysis,
      (postTests maxSize s (some u) (some f) body rand filename now).response = .ok (test, analysis) ∧
      0 ≤ test.confidence ∧ test.confidence ≤ 1 ∧
      (test.result = .POSITIVE ∨ test.result = .NEGATIVE ∨ test.result = .INVALID ∨
        test.result = .INCONCLUSIVE) ∧
      getTestById (postTests maxSize s (some u) (some f) body rand filename now).store (some u)
        test.id = .ok test := by
  rw [postTests_success s u f body rand filename now maxSize hmime hsize hvalid]
  refine ⟨createdRecord s u body rand filename now, analyzeTestImage rand, rfl,
    (analyzeTestImage_confidence_bounds rand).1, (analyzeTestImage_confidence_bounds rand).2,
    testResult_cases _, ?_⟩
  have hnone : s.tests.find?
      (fun t => t.id == (createdRecord s u body rand filename now).id && t.userId == u.id) = none := by
    rw [List.find?_eq_none]
    intro t ht
    have := hfresh t ht
    simp [createdRecord]
    intro hid
    omega
  simp only [getTestById, findTest, List.find?_append, hnone, Option.none_or]
  simp [createdRecord]

/-- C1 witness: a valid 2 MB JPEG COVID_19 submission into the empty store. -/
theorem createTest_valid_submission_witness :
    allowedTypes.contains goodFile.mimetype = true ∧
    goodFile.size ≤ uploadMaxSizeDefault ∧
    (validateRDTImage goodFile.buffer).isValid = true ∧
    (∀ t ∈ store0.tests, t.id < store0.nextId) ∧
    (∃ test analysis,
      (postTests uploadMaxSizeDefault store0 (some user1) (some goodFile) body0 0 "img.jpg" 5).response =
        .ok (test, analysis) ∧
      0 ≤ test.confidence ∧ test.confidence ≤ 1 ∧
      (test.result = .POSITIVE ∨ test.result = .NEGATIVE ∨ test.result = .INVALID ∨
        test.result = .INCONCLUSIVE) ∧
      getTestById (postTests uploadMaxSizeDefault store0 (some user1) (some goodFile) body0 0 "img.jpg" 5).store
        (some user1) test.id = .ok test) :=
  ⟨rfl, by decide, rfl, by simp [store0],
   createTest_valid_submission store0 user1 goodFile body0 0 "img.jpg" 5 uploadMaxSizeDefault
     rfl (by decide) rfl (by simp [store0])⟩

/-- C2: every submission the intake rejects — unsupported MIME type, size over
the ceiling, or quality-check failure — creates no record (the store is
unchanged) and never invokes the classifier. -/
theorem intake_rejection_no_record
    (maxSize : Nat) (s : Store) (user : Option User) (f : UploadedFile) (body : CreateBody)
    (rand : Fin 4) (filename : String) (now : Nat)
    (hrej : allowedTypes.contains f.mimetype = false ∨ maxSize < f.size ∨
            (validateRDTImage f.buffer).isValid = false) :
    (∃ e, (postTests maxSize s user (some f) body rand filename now).response = .error e) ∧
    (postTests maxSize s user (some f) body rand filename now).store = s ∧
    (postTests maxSize s user (some f) body rand filename now).classifierInvoked = false := by
  by_cases hm : allowedTypes.contains f.mimetype = true
  · by_cases hs : f.size ≤ maxSize
    · have hv : (validateRDTImage f.buffer).isValid = false := by
        rcases hrej with h | h | h
        · rw [hm] at h; cases h
        · omega
        · exact h
      rw [show postTests maxSize s user (some f) body rand filename now =
            createTest s user (some f) body rand filename now by
          simp only [postTests, uploadGate_ok hm hs]]
      cases user with
      | none => exact outcome_parts rfl
      | some u =>
        exact outcome_parts (show createTest s (some u) (some f) body rand filename now =
          ⟨s, .error (createError.badRequest
              ("Image quality issues: " ++ String.intercalate ", " (validateRDTImage f.buffer).issues)
              (some "POOR_IMAGE_QUALITY")), false⟩ by
          simp only [createTest, hv, Bool.false_eq_true, if_false])
    · exact outcome_parts (show postTests maxSize s user (some f) body rand filename now =
        ⟨s, .error { message := "File size too large", statusCode := 400,
                     code := some "FILE_TOO_LARGE" }, false⟩ by
        simp only [postTests, uploadGate, fileFilter, hm, if_true]
        rw [if_pos (by omega)])
  · have hm2 : allowedTypes.contains f.mimetype = false := by
      cases h : allowedTypes.contains f.mimetype
      · rfl
      · exact absurd h hm
    exact outcome_parts (show postTests maxSize s user (some f) body rand filename now =
      ⟨s, .error { message := "Invalid file type. Only JPEG, PNG, and WebP images are allowed.",
                   statusCode := 400, code := some "INVALID_FILE_TYPE" }, false⟩ by
      simp only [postTests, uploadGate, fileFilter, hm2, Bool.false_eq_true, if_false])

/-- C2 witness: an 8 MB JPEG against the default 5 MB ceiling. -/
theorem intake_rejection_no_record_witness :
    (allowedTypes.contains bigFile.mimetype = false ∨ uploadMaxSizeDefault < bigFile.size ∨
      (validateRDTImage bigFile.buffer).isValid = false) ∧
    (∃ e, (postTests uploadMaxSizeDefault store0 (some user1) (some bigFile) body0 0 "b.jpg" 5).response = .error e) ∧
    (postTests uploadMaxSizeDefault store0 (some user1) (some bigFile) body0 0 "b.jpg" 5).store = store0 ∧
    (postTests uploadMaxSizeDefault store0 (some user1) (some bigFile) body0 0 "b.jpg" 5).classifierInvoked = false :=
  ⟨Or.inr (Or.inl (by decide)),
   intake_rejection_no_record uploadMaxSizeDefault store0 (some user1) bigFile body0 0 "b.jpg" 5
     (Or.inr (Or.inl (by decide)))⟩

/-- C3 counterexample: for a store holding one NEGATIVE record the positivity
rate is 0 while totalTests is 1, so the rate is not 0 exactly when the total
is 0. -/
theorem positivityRate_zero_with_nonzero_total :
    (userStatsData storeOneNegative 1).positivityRate = 0 ∧
    (userStatsData storeOneNegative 1).totalTests = 1 := by
  constructor
  · simp [userStatsData, storeOneNegative, negRecord, countResult, positivityRateOf]
  · simp [userStatsData, storeOneNegative, negRecord]

/-- C3 amended: both statistics operations compute
positivityRate = positiveCount / totalCount * 100 whenever the total is
positive, define it as 0 when the total is 0, and the rate always lies in
[0, 100]; it is also 0 whenever no record is positive. -/
theorem positivityRate_formula_and_bounds (s : Store) (uid : Nat) (whereFilter : TestRecord → Bool) :
    (0 ≤ (userStatsData s uid).positivityRate ∧ (userStatsData s uid).positivityRate ≤ 100 ∧
     ((userStatsData s uid).totalTests = 0 → (userStatsData s uid).positivityRate = 0) ∧
     (0 < (userStatsData s uid).totalTests →
       (userStatsData s uid).positivityRate =
         ((userStatsData s uid).positiveTests : ℚ) / ((userStatsData s uid).totalTests : ℚ) * 100)) ∧
    (0 ≤ (getTestStatistics s whereFilter).positivityRate ∧
     (getTestStatistics s whereFilter).positivityRate ≤ 100 ∧
     ((getTestStatistics s whereFilter).total = 0 →
       (getTestStatistics s whereFilter).positivityRate = 0) ∧
     (0 < (getTestStatistics s whereFilter).total →
       (getTestStatistics s whereFilter).positivityRate =
         ((getTestStatistics s whereFilter).positive : ℚ) /
           ((getTestStatistics s whereFilter).total : ℚ) * 100)) := by
  constructor
  · simpa [userStatsData] using
      positivityRateOf_bounds (countResult_le_length (s.tests.filter (fun t => t.userId == uid)) .POSITIVE)
  · simpa [getTestStatistics] using
      positivityRateOf_bounds (countResult_le_length (s.tests.filter whereFilter) .POSITIVE)

/-- C4: a distinct non-admin user can never get, update or delete another
owner's record; each call is an error outcome and the store is untouched. -/
theorem cross_owner_access_never_succeeds
    (s : Store) (a b : User) (t : TestRecord) (bodyU : UpdateBody)
    (huniq : ∀ t1 ∈ s.tests, ∀ t2 ∈ s.tests, t1.id = t2.id → t1 = t2)
    (ht : t ∈ s.tests) (hown : t.userId = a.id) (hne : b.id ≠ a.id) (hrole : b.role ≠ .ADMIN) :
    getTestById s (some b) t.id = .error notFoundTestError ∧
    (updateTest s (some b) t.id bodyU).2 = .error notFoundTestError ∧
    (updateTest s (some b) t.id bodyU).1 = s ∧
    (deleteTest s (some b) t.id).2 = .error notFoundTestError ∧
    (deleteTest s (some b) t.id).1 = s := by
  have hfind : findTest s b.id t.id = none := by
    apply findTest_none_of_other_owner
    intro x hx hxid
    rw [huniq x hx t ht hxid, hown]
    exact fun hab => hne hab.symm
  exact ⟨getTestById_of_findTest_none hfind,
    by rw [updateTest_of_findTest_none hfind],
    by rw [updateTest_of_findTest_none hfind],
    by rw [deleteTest_of_findTest_none hfind],
    by rw [deleteTest_of_findTest_none hfind]⟩

/-- C4 witness: user 2 against the record of user 1. -/
theorem cross_owner_access_never_succeeds_witness :
    (∀ t1 ∈ storeOfA.tests, ∀ t2 ∈ storeOfA.tests, t1.id = t2.id → t1 = t2) ∧
    recordOfA ∈ storeOfA.tests ∧ recordOfA.userId = user1.id ∧ userB.id ≠ user1.id ∧
    userB.role ≠ .ADMIN ∧
    (getTestById storeOfA (some userB) recordOfA.id = .error notFoundTestError ∧
     (updateTest storeOfA (some userB) recordOfA.id ⟨none, none⟩).2 = .error notFoundTestError ∧
     (updateTest storeOfA (some userB) recordOfA.id ⟨none, none⟩).1 = storeOfA ∧
     (deleteTest storeOfA (some userB) recordOfA.id).2 = .error notFoundTestError ∧
     (deleteTest storeOfA (some userB) recordOfA.id).1 = storeOfA) :=
  ⟨by simp [storeOfA], by simp [storeOfA], rfl, by decide, by decide,
   cross_owner_access_never_succeeds storeOfA user1 userB recordOfA ⟨none, none⟩
     (by simp [storeOfA]) (by simp [storeOfA]) rfl (by decide) (by decide)⟩

/-- C5 counterexample: the cross-owner get answers 404 TEST_NOT_FOUND, not the
claimed 403 Forbidden. -/
theorem cross_owner_get_is_notFound_not_forbidden :
    getTestById storeOfA (some userB) 1 =
      .error { message := "Test not found", statusCode := 404, code := some "TEST_NOT_FOUND" } ∧
    (404 : Nat) ≠ 403 := ⟨rfl, by decide⟩

/-- C5 amended: every read and write operation requires the requester to own
the record — the ownership check is folded into the scoped lookup, with no
admin bypass on these endpoints — and a failed check surfaces as NotFound
(status 404, TEST_NOT_FOUND), leaving the store untouched, rather than as
Forbidden. -/
theorem ownership_enforced_via_notFound
    (s : Store) (b : User) (tid : Nat) (bodyU : UpdateBody) (rand : Fin 4)
    (hno : ∀ t ∈ s.tests, t.id = tid → t.userId ≠ b.id) :
    getTestById s (some b) tid = .error notFoundTestError ∧
    (updateTest s (some b) tid bodyU).2 = .error notFoundTestError ∧
    (updateTest s (some b) tid bodyU).1 = s ∧
    (deleteTest s (some b) tid).2 = .error notFoundTestError ∧
    (deleteTest s (some b) tid).1 = s ∧
    (reanalyzeTest s (some b) tid rand).2 = .error notFoundTestError ∧
    (reanalyzeTest s (some b) tid rand).1 = s ∧
    notFoundTestError.statusCode = 404 := by
  have hfind := findTest_none_of_other_owner hno
  exact ⟨getTestById_of_findTest_none hfind,
    by rw [updateTest_of_findTest_none hfind],
    by rw [updateTest_of_findTest_none hfind],
    by rw [deleteTest_of_findTest_none hfind],
    by rw [deleteTest_of_findTest_none hfind],
    by rw [reanalyzeTest_of_findTest_none hfind],
    by rw [reanalyzeTest_of_findTest_none hfind],
    rfl⟩

/-- C5 witness: user 2 probing record 1 of user 1. -/
theorem ownership_enforced_via_notFound_witness :
    (∀ t ∈ storeOfA.tests, t.id = 1 → t.userId ≠ userB.id) ∧
    (getTestById storeOfA (some userB) 1 = .error notFoundTestError ∧
     (updateTest storeOfA (some userB) 1 ⟨none, none⟩).2 = .error notFoundTestError ∧
     (updateTest storeOfA (some userB) 1 ⟨none, none⟩).1 = storeOfA ∧
     (deleteTest storeOfA (some userB) 1).2 = .error notFoundTestError ∧
     (deleteTest storeOfA (some userB) 1).1 = storeOfA ∧
     (reanalyzeTest storeOfA (some userB) 1 0).2 = .error notFoundTestError ∧
     (reanalyzeTest storeOfA (some userB) 1 0).1 = storeOfA ∧
     notFoundTestError.statusCode = 404) :=
  ⟨by simp [storeOfA, recordOfA, userB],
   ownership_enforced_via_notFound storeOfA userB 1 ⟨none, none⟩ 0
     (by simp [storeOfA, recordOfA, userB])⟩

/-- C6: reanalyze is the only operation that changes a stored record's result
or confidence — update, delete and create all preserve them — a reanalyzed
record carries both fields of one single analysis, and in every state
reachable from an analysis-consistent store each record's (result,
confidence) pair was produced together by the classifier, never a mix of one
analysis result with another analysis confidence. -/
theorem reanalyze_only_mutator_of_analysis (s : Store) (hcons : analysisConsistent s) :
    (∀ user tid b, ∀ t ∈ (updateTest s user tid b).1.tests,
       ∃ t0 ∈ s.tests, t.id = t0.id ∧ t.result = t0.result ∧ t.confidence = t0.confidence) ∧
    (∀ user tid, ∀ t ∈ (deleteTest s user tid).1.tests, t ∈ s.tests) ∧
    (∀ maxSize user file body rand filename now, ∀ t ∈ s.tests,
       t ∈ (postTests maxSize s user file body rand filename now).store.tests) ∧
    (∀ user tid rand, ∀ t ∈ (reanalyzeTest s user tid rand).1.tests,
       (∃ t0 ∈ s.tests, t.id = t0.id ∧ t.result = t0.result ∧ t.confidence = t0.confidence) ∨
       (t.result = (analyzeTestImage rand).result ∧ t.confidence = (analyzeTestImage rand).confidence)) ∧
    (∀ ops : List Op, analysisConsistent (runOps s ops)) :=
  ⟨fun _ _ _ _ ht => updateTest_store_mem ht,
   fun _ _ _ ht => deleteTest_store_mem ht,
   fun _ _ _ _ _ _ _ _ ht => postTests_store_mem_mono ht,
   fun _ _ _ _ ht => reanalyzeTest_store_mem ht,
   runOps_analysisConsistent hcons⟩

/-- C6 witness: the one-record store of user 1. -/
theorem reanalyze_only_mutator_of_analysis_witness :
    analysisConsistent storeOfA ∧
    ((∀ user tid b, ∀ t ∈ (updateTest storeOfA user tid b).1.tests,
       ∃ t0 ∈ storeOfA.tests, t.id = t0.id ∧ t.result = t0.result ∧ t.confidence = t0.confidence) ∧
     (∀ user tid, ∀ t ∈ (deleteTest storeOfA user tid).1.tests, t ∈ storeOfA.tests) ∧
     (∀ maxSize user file body rand filename now, ∀ t ∈ storeOfA.tests,
       t ∈ (postTests maxSize storeOfA user file body rand filename now).store.tests) ∧
     (∀ user tid rand, ∀ t ∈ (reanalyzeTest storeOfA user tid rand).1.tests,
       (∃ t0 ∈ storeOfA.tests, t.id = t0.id ∧ t.result = t0.result ∧ t.confidence = t0.confidence) ∨
       (t.result = (analyzeTestImage rand).result ∧ t.confidence = (analyzeTestImage rand).confidence)) ∧
     (∀ ops : List Op, analysisConsistent (runOps storeOfA ops))) :=
  ⟨by simp [analysisConsistent, storeOfA, recordOfA, mockResults],
   reanalyze_only_mutator_of_analysis storeOfA
     (by simp [analysisConsistent, storeOfA, recordOfA, mockResults])⟩

/-- C7: an owner's update can change only location and isAnonymous; id,
ownerId, testType, result, confidence, imageRef, coordinates, testDate and
createdAt are unchanged, and the image store and id counter are untouched. -/
theorem updateTest_frame (s : Store) (u : User) (tid : Nat) (b : UpdateBody) :
    (∀ t ∈ (updateTest s (some u) tid b).1.tests, ∃ t0 ∈ s.tests,
       t.id = t0.id ∧ t.userId = t0.userId ∧ t.testType = t0.testType ∧
       t.result = t0.result ∧ t.confidence = t0.confidence ∧ t.imageUrl = t0.imageUrl ∧
       t.latitude = t0.latitude ∧ t.longitude = t0.longitude ∧
       t.testDate = t0.testDate ∧ t.createdAt = t0.createdAt) ∧
    (updateTest s (some u) tid b).1.images = s.images ∧
    (updateTest s (some u) tid b).1.nextId = s.nextId := by
  cases hft : findTest s u.id tid with
  | none =>
    simp only [updateTest, hft]
    exact ⟨fun t ht => ⟨t, ht, by simp⟩, by simp, by simp⟩
  | some t1 =>
    simp only [updateTest, hft]
    refine ⟨?_, by simp, by simp⟩
    intro t ht
    simp only [List.mem_map] at ht
    obtain ⟨r, hr, hrt⟩ := ht
    by_cases hid : (r.id == tid) = true
    · rw [if_pos hid] at hrt
      subst hrt
      exact ⟨r, hr, by simp [applyUpdate]⟩
    · rw [if_neg hid] at hrt
      subst hrt
      exact ⟨r, hr, by simp⟩

/-- C7 witness: updating location and anonymity of the record of user 1. -/
theorem updateTest_frame_witness :
    (∀ t ∈ (updateTest storeOfA (some user1) 1 ⟨some (some "Fes"), some true⟩).1.tests,
       ∃ t0 ∈ storeOfA.tests,
       t.id = t0.id ∧ t.userId = t0.userId ∧ t.testType = t0.testType ∧
       t.result = t0.result ∧ t.confidence = t0.confidence ∧ t.imageUrl = t0.imageUrl ∧
       t.latitude = t0.latitude ∧ t.longitude = t0.longitude ∧
       t.testDate = t0.testDate ∧ t.createdAt = t0.createdAt) ∧
    (updateTest storeOfA (some user1) 1 ⟨some (some "Fes"), some true⟩).1.images = storeOfA.images ∧
    (updateTest storeOfA (some user1) 1 ⟨some (some "Fes"), some true⟩).1.nextId = storeOfA.nextId :=
  updateTest_frame storeOfA user1 1 ⟨some (some "Fes"), some true⟩

/-- C8 counterexample: on the 5-record positive-only fixture with page 1 and
limit 2, the listing returns the two most recent records, whose confidences
are strictly increasing — not ordered by descending confidence, because the
controller always sorts by testDate descending and reads no sort key. -/
theorem list_sorts_by_date_not_confidence :
    getUserTests fixtureStore (some user1) fixtureQuery =
      .ok { data := [posRecord 5 50 (5/10), posRecord 4 40 (6/10)],
            pagination := { page := 1, limit := 2, total := 5, totalPages := 3,
                            hasNext := true, hasPrev := false } } ∧
    (posRecord 5 50 (5/10)).confidence < (posRecord 4 40 (6/10)).confidence := by
  constructor
  · rfl
  · norm_num [posRecord]

/-- C8 amended: the listing supports filters and offset pagination with page,
limit, total and totalPages metadata, but its sort order is fixed to testDate
descending (the sortBy and sortOrder query parameters are accepted by
validation and ignored); the scenario fixture returns exactly two records
ordered by descending testDate. -/
theorem list_pagination_and_date_sort (s : Store) (u : User) (q : ListQuery) :
    ∃ resp, getUserTests s (some u) q = .ok resp ∧
      resp.pagination.page = q.page ∧ resp.pagination.limit = q.limit ∧
      resp.pagination.total = (s.tests.filter (listWhere u.id q)).length ∧
      resp.pagination.totalPages = ceilDiv (s.tests.filter (listWhere u.id q)).length q.limit ∧
      resp.data.length =
        min q.limit ((s.tests.filter (listWhere u.id q)).length - (q.page - 1) * q.limit) ∧
      List.Sorted dateDesc resp.data := by
  refine ⟨_, rfl, rfl, rfl, rfl, rfl, ?_, ?_⟩
  · simp only [getUserTests]
    rw [List.length_take, List.length_drop, List.length_insertionSort]
  · exact List.Pairwise.sublist
      ((List.take_sublist _ _).trans (List.drop_sublist _ _))
      (List.sorted_insertionSort dateDesc (s.tests.filter (listWhere u.id q)))

/-- C9: deleting an owned record succeeds and removes the record, but the
stored image file is not released — the deleteImage call is left commented
out behind a TODO in the handler, although deleteImage itself would remove
the file. -/
theorem deleteTest_does_not_release_image :
    (deleteTest storeWithImage (some user1) 1).2 = .ok () ∧
    (deleteTest storeWithImage (some user1) 1).1.tests = [] ∧
    (deleteTest storeWithImage (some user1) 1).1.images = ["img1.jpg"] ∧
    (deleteImage storeWithImage "img1.jpg").1.images = [] :=
  ⟨rfl, rfl, rfl, rfl⟩

/-- C10: validateRDTImage always yields an isValid and issues result — valid
exactly when no issue was raised — and an undecodable buffer produces the
fixed fallback, which the submission pipeline turns into a 400
POOR_IMAGE_QUALITY rejection with the store unchanged and the classifier
never invoked, not an internal error. -/
theorem validateRDTImage_total_and_fallback
    (s : Store) (u : User) (f : UploadedFile) (body : CreateBody) (rand : Fin 4)
    (filename : String) (now : Nat) (maxSize : Nat)
    (hmime : allowedTypes.contains f.mimetype = true)
    (hsize : f.size ≤ maxSize)
    (hfail : f.buffer = none) :
    validateRDTImage f.buffer = { isValid := false, issues := ["Failed to validate image"] } ∧
    (∀ img : Option ImageProps,
       (validateRDTImage img).isValid = true ↔ (validateRDTImage img).issues = []) ∧
    (postTests maxSize s (some u) (some f) body rand filename now).response =
      .error (createError.badRequest "Image quality issues: Failed to validate image"
        (some "POOR_IMAGE_QUALITY")) ∧
    (postTests maxSize s (some u) (some f) body rand filename now).store = s ∧
    (postTests maxSize s (some u) (some f) body rand filename now).classifierInvoked = false ∧
    (createError.badRequest "Image quality issues: Failed to validate image"
      (some "POOR_IMAGE_QUALITY")).statusCode = 400 := by
  have h1 : validateRDTImage f.buffer = { isValid := false, issues := ["Failed to validate image"] } := by
    rw [hfail]; rfl
  have hv : (validateRDTImage f.buffer).isValid = false := by rw [h1]
  have hpost : postTests maxSize s (some u) (some f) body rand filename now =
      ⟨s, .error (createError.badRequest "Image quality issues: Failed to validate image"
        (some "POOR_IMAGE_QUALITY")), false⟩ := by
    rw [show postTests maxSize s (some u) (some f) body rand filename now =
          createTest s (some u) (some f) body rand filename now by
        simp only [postTests, uploadGate_ok hmime hsize]]
    simp only [createTest, hv, Bool.false_eq_true, if_false, h1]
    rfl
  refine ⟨h1, ?_, by rw [hpost], by rw [hpost], by rw [hpost], rfl⟩
  intro img
  cases img with
  | none => simp [validateRDTImage]
  | some p =>
    simp only [validateRDTImage]
    constructor
    · intro h
      exact List.isEmpty_iff.mp h
    · intro h
      exact List.isEmpty_iff.mpr h

/-- C10 witness: an undecodable PNG upload into the empty store. -/
theorem validateRDTImage_total_and_fallback_witness :
    allowedTypes.contains badFile.mimetype = true ∧
    badFile.size ≤ uploadMaxSizeDefault ∧
    badFile.buffer = none ∧
    (validateRDTImage badFile.buffer = { isValid := false, issues := ["Failed to validate image"] } ∧
     (∀ img : Option ImageProps,
        (validateRDTImage img).isValid = true ↔ (validateRDTImage img).issues = []) ∧
     (postTests uploadMaxSizeDefault store0 (some user1) (some badFile) body0 0 "x.jpg" 5).response =
       .error (createError.badRequest "Image quality issues: Failed to validate image"
         (some "POOR_IMAGE_QUALITY")) ∧
     (postTests uploadMaxSizeDefault store0 (some user1) (some badFile) body0 0 "x.jpg" 5).store = store0 ∧
     (postTests uploadMaxSizeDefault store0 (some user1) (some badFile) body0 0 "x.jpg" 5).classifierInvoked = false ∧
     (createError.badRequest "Image quality issues: Failed to validate image"
       (some "POOR_IMAGE_QUALITY")).statusCode = 400) :=
  ⟨rfl, by decide, rfl,
   validateRDTImage_total_and_fallback store0 user1 badFile body0 0 "x.jpg" 5 uploadMaxSizeDefault
     rfl (by decide) rfl⟩

end Gigalab
